import Mathlib

/-!
Verification development for a FastAPI news backend ("toutiao").

The repository serves paginated news categories and articles, tracks
per-article view counts, surfaces related articles, and provides
username/password registration with opaque bearer tokens.

This file shallowly embeds the relevant source functions:
  * `crud/news.py`    : `get_news_list`, `get_news_count`, `get_news_detail`,
                        `increase_news_views`, `get_related_news`
  * `crud/users.py`   : `get_user_by_username`, `create_user`, `create_token`
  * `routers/news.py` : `get_news_list` route, `get_news_detail` route
  * `routers/user.py` : `register` route
  * `utils/security.py` : `get_password_hash`

Database tables are embedded as Lean lists of rows; SQLAlchemy statements
become the corresponding list operations (`filter` for WHERE, `drop`/`take`
for OFFSET/LIMIT, `mergeSort` for ORDER BY, `map` for UPDATE).  Nondeterministic
inputs of the code (`uuid.uuid4()`, `datetime.now()`, the bcrypt primitive)
are passed in as explicit parameters.  The ORM model classes `News`, `User`,
`UserToken` and the request schema `UserRequest` are declared in
`models/news.py`, `models/users.py` and `schemas/users.py`; of those only the
`Category` part of `models/news.py` is present in the sources available here,
so the missing declarations are modelled from the spec (each such definition
is marked `Modelled from the spec:`).
-/

/-- Modelled from the spec: the `News` ORM model (its declaration in
`models/news.py` is not among the available sources; `crud/news.py` imports
it).  Fields per spec §3: `id` (unique, stable), `categoryId`, `title`,
`content`, `image`, `author`, `publishTime` (timestamp, used for ordering),
`views` (non-negative integer, default 0), plus the `created_at`/`updated_at`
timestamps every table inherits from `Base` in `models/news.py`.
Timestamps are modelled as integers. -/
structure News where
  id : Int
  category_id : Int
  title : String
  content : String
  image : String
  author : String
  publish_time : Int
  views : Nat
  created_at : Int
  updated_at : Int
deriving DecidableEq, Repr

/-- Modelled from the spec: the `User` ORM model (declared in
`models/users.py`, not among the available sources).  Fields per spec §3:
`id`, `username` (unique), `password` (opaque hash, never the plaintext),
`bio`, `avatar`. -/
structure User where
  id : Nat
  username : String
  password : String
  bio : String
  avatar : String
deriving DecidableEq, Repr

/-- Modelled from the spec: the `UserToken` ORM model (declared in
`models/users.py`, not among the available sources).  Spec §3 lists `userId`,
`token`, `expiresAt`.  In addition the row has its own auto-assigned primary
key `id`: `crud/users.py` refers to `UserToken.id` while its constructor call
`UserToken(user_id=…, token=…, expires_at=…)` does not set `id`, so `id` is a
separate auto-increment column following the pattern of `Category.id` in
`models/news.py`. -/
structure UserToken where
  id : Nat
  user_id : Nat
  token : String
  expires_at : Int
deriving DecidableEq, Repr

/-- Modelled from the spec: the registration request schema `UserRequest`
(declared in `schemas/users.py`, not among the available sources); the
register endpoint takes a body `\x7busername, password\x7d` per spec §6. -/
structure UserRequest where
  username : String
  password : String
deriving DecidableEq, Repr

/-- Embedding of `utils/security.py::get_password_hash`.  The bcrypt
primitive behind `pwd_context.hash` is an external opaque one-way function
(spec §1) and is passed in as the parameter `hash`.  The function hashes
`password[:72]`, i.e. the password truncated to its first 72 characters. -/
def get_password_hash (hash : String → String) (password : String) : String :=
  let truncated_password := password.take 72
  hash truncated_password

/-- Embedding of the FastAPI query-parameter declaration
`page_size: int = Query(10, alias="pageSize", le=100)` in
`routers/news.py::get_news_list`.  FastAPI/pydantic treats `le=100` as a
validation constraint: a request whose `pageSize` exceeds 100 is rejected
with a validation error before the handler runs (it is not clamped).  No
lower bound (`ge`) is declared, so values below 1 pass validation unchanged.
An absent parameter takes the default 10. -/
def validate_page_size (raw : Option Int) : Except String Int :=
  match raw with
  | none => Except.ok 10
  | some v =>
    if v ≤ 100 then Except.ok v
    else Except.error "Input should be less than or equal to 100"

/-- Embedding of the offset computation `offset = (page - 1) * page_size` in
`routers/news.py::get_news_list` (the `page` parameter is declared as
`page: int = 1`: default 1, no further constraint or coercion). -/
def route_offset (page page_size : Int) : Int :=
  (page - 1) * page_size

/-- Default of the FastAPI parameter declaration `page: int = 1` in
`routers/news.py::get_news_list`: an absent `page` is 1. -/
def page_param_default : Int := 1

/-- C10: password hashing operates only on the first 72 characters of the
supplied password: whenever two passwords agree on their first 72 characters,
`get_password_hash` hashes the same truncated input, so the resulting stored
hashes are of identical plaintext — for every choice of the underlying bcrypt
primitive `hash`. -/
theorem get_password_hash_truncates (hash : String → String) (p1 p2 : String)
    (h : p1.take 72 = p2.take 72) :
    get_password_hash hash p1 = get_password_hash hash p2 := by
  simp only [get_password_hash, h]

set_option maxRecDepth 8000 in
/-- C10 witness: two concrete 73-character passwords that differ only at
position 73 (so they are different passwords) hash to the same value. -/
theorem get_password_hash_truncates_witness :
    (String.mk (List.replicate 72 'a') ++ "b") ≠ (String.mk (List.replicate 72 'a') ++ "c")
    ∧ ∀ hash : String → String,
        get_password_hash hash (String.mk (List.replicate 72 'a') ++ "b")
          = get_password_hash hash (String.mk (List.replicate 72 'a') ++ "c") :=
  ⟨by decide, fun hash =>
    get_password_hash_truncates hash
      (String.mk (List.replicate 72 'a') ++ "b")
      (String.mk (List.replicate 72 'a') ++ "c") (by decide)⟩

/-- C7 counterexample: the claim "a pageSize value above 100 is silently
clamped to 100 (the request still succeeds) and a pageSize value below 1 is
rejected" is false on the code: `pageSize = 101` is rejected by the `le=100`
validation constraint (the request fails, nothing is clamped), while
`pageSize = 0` passes validation unchanged (no lower bound is declared). -/
theorem validate_page_size_not_clamping :
    validate_page_size (some 101) = Except.error "Input should be less than or equal to 100"
    ∧ validate_page_size (some 101) ≠ Except.ok 100
    ∧ validate_page_size (some 0) = Except.ok 0 := by
  refine ⟨rfl, by simp [validate_page_size], rfl⟩

/-- C7 amended: a `pageSize` value above 100 is rejected by validation (the
request fails with a validation error; nothing is clamped), while every value
at most 100 — including values below 1 — is accepted unchanged; an absent
`pageSize` defaults to 10. -/
theorem validate_page_size_spec (v : Int) :
    (v ≤ 100 → validate_page_size (some v) = Except.ok v)
    ∧ (100 < v →
        validate_page_size (some v)
          = Except.error "Input should be less than or equal to 100")
    ∧ validate_page_size none = Except.ok 10 := by
  refine ⟨fun h => ?_, fun h => ?_, rfl⟩
  · simp [validate_page_size, h]
  · simp [validate_page_size, not_le.mpr h, Int.not_le.mpr h]

/-- C7 amended witness: at `pageSize = 7` (≤ 100) the value is accepted
unchanged, and at `pageSize = 101` it is rejected. -/
theorem validate_page_size_spec_witness :
    validate_page_size (some 7) = Except.ok 7
    ∧ validate_page_size (some 101)
        = Except.error "Input should be less than or equal to 100" :=
  ⟨(validate_page_size_spec 7).1 (by decide),
   (validate_page_size_spec 101).2.1 (by decide)⟩

/-- C8 counterexample: the claim "the page parameter is coerced to be at
least 1 before the offset is computed, so for every caller-supplied page
value — including 0 and negative values — the computed offset is
non-negative" is false on the code: the handler applies no coercion, and the
caller-supplied value `page = 0` with `pageSize = 10` yields
`offset = (0 - 1) * 10 = -10 < 0`. -/
theorem route_offset_negative_at_page_zero :
    route_offset 0 10 = -10 ∧ route_offset 0 10 < 0 := by
  refine ⟨by decide, by decide⟩

/-- C8 amended: `page` defaults to 1 when absent (and the default yields
offset 0), but a caller-supplied `page` is not coerced: the computed offset
is guaranteed non-negative only when `page ≥ 1` (for any non-negative
`pageSize`); a caller-supplied `page ≤ 0` with a positive `pageSize`
produces a negative offset. -/
theorem route_offset_spec (page page_size : Int)
    (hp : 1 ≤ page) (hs : 0 ≤ page_size) :
    0 ≤ route_offset page page_size
    ∧ route_offset page_param_default page_size = 0 := by
  constructor
  · exact mul_nonneg (by omega) hs
  · simp [route_offset, page_param_default]

/-- C8 amended witness: at `page = 3`, `pageSize = 10` the offset is
non-negative and the default page gives offset 0. -/
theorem route_offset_spec_witness :
    (1 : Int) ≤ 3 ∧ (0 : Int) ≤ 10
    ∧ (0 ≤ route_offset 3 10 ∧ route_offset page_param_default 10 = 0) :=
  ⟨by decide, by decide, route_offset_spec 3 10 (by decide) (by decide)⟩

/-- Embedding of `crud/news.py::get_news_list`: the statement
`select(News).where(News.category_id == category_id).offset(skip).limit(limit)`
over the news table.  WHERE becomes `filter`, OFFSET becomes `drop`, LIMIT
becomes `take`.  MySQL rejects negative OFFSET/LIMIT values, so the embedding
models the non-negative regime (`Int.toNat`); every use below carries
hypotheses ensuring `skip, limit ≥ 0`. -/
def get_news_list (db : List News) (category_id : Int) (skip limit : Int) :
    List News :=
  (((db.filter (fun n => n.category_id == category_id)).drop skip.toNat).take
    limit.toNat)

/-- Embedding of `crud/news.py::get_news_count`: the statement
`select(func.count(News.id)).where(News.category_id == category_id)` — the
number of news rows in the category, independent of any window. -/
def get_news_count (db : List News) (category_id : Int) : Nat :=
  (db.filter (fun n => n.category_id == category_id)).length

/-- Embedding of `crud/news.py::get_news_detail`: the statement
`select(News).where(News.id == news_id)` read with `scalar_one_or_none()`.
With `News.id` the primary key at most one row matches, so this is the first
(unique) row with that id, or `none`. -/
def get_news_detail (db : List News) (news_id : Int) : Option News :=
  db.find? (fun n => n.id == news_id)

/-- Embedding of `crud/news.py::increase_news_views`: the single conditional
update statement
`update(News).where(News.id == news_id).values(views=News.views + 1)`,
committed immediately.  Returns the updated table together with
`result.rowcount > 0` (whether any row matched). -/
def increase_news_views (db : List News) (news_id : Int) : List News × Bool :=
  (db.map (fun n =>
      if n.id == news_id then { n with views := n.views + 1 } else n),
   db.countP (fun n => n.id == news_id) > 0)

/-- Iterated application of `increase_news_views` (the claim speaks about
calling it N times on the same id); only the table state is threaded. -/
def increase_news_views_iter (db : List News) (news_id : Int) : Nat → List News
  | 0 => db
  | k + 1 => (increase_news_views (increase_news_views_iter db news_id k) news_id).1

/-- Total view count of the rows whose id is `news_id` (with unique ids,
this is that article's `views` field). -/
def sum_views (db : List News) (news_id : Int) : Nat :=
  ((db.filter (fun n => n.id == news_id)).map (fun n => n.views)).sum

/-- Response payload of the news-list route in `routers/news.py`. -/
structure NewsListData where
  list : List News
  total : Nat
  hasMore : Bool
deriving DecidableEq, Repr

/-- Uniform response envelope `\x7bcode, message, data\x7d`. -/
structure Envelope (α : Type) where
  code : Int
  message : String
  data : α
deriving DecidableEq, Repr

/-- Embedding of the `routers/news.py::get_news_list` handler body (after
parameter validation): `offset = (page - 1) * page_size`, fetch the window,
fetch the total, `has_more = (offset + len(new_list)) < total`, and assemble
the envelope.  `offset` and `has_more` are computed over `Int` exactly as the
Python does. -/
def get_news_list_route (db : List News) (category_id page page_size : Int) :
    Envelope NewsListData :=
  let offset := route_offset page page_size
  let new_list := get_news_list db category_id offset page_size
  let total := get_news_count db category_id
  let has_more := decide (offset + (new_list.length : Int) < (total : Int))
  { code := 200
    message := "获取新闻列表成功"
    data := { list := new_list, total := total, hasMore := has_more } }

/-- Updating views leaves every id in place: the id column of the table is
unchanged by `increase_news_views`. -/
theorem increase_news_views_map_id (db : List News) (news_id : Int) :
    (increase_news_views db news_id).1.map (fun n => n.id) = db.map (fun n => n.id) := by
  simp only [increase_news_views, List.map_map]
  refine List.map_congr_left (fun n _ => ?_)
  by_cases h : n.id = news_id <;> simp [h]

/-- One update adds the number of matched rows to the total view count of the
matched id, and leaves every other row untouched. -/
theorem increase_news_views_sum (db : List News) (news_id : Int) :
    sum_views (increase_news_views db news_id).1 news_id
      = sum_views db news_id + db.countP (fun n => n.id == news_id) := by
  induction db with
  | nil => rfl
  | cons n db ih =>
    by_cases h : n.id == news_id <;>
      simp_all [sum_views, increase_news_views, List.countP_cons, h]
    all_goals omega

/-- With unique ids, an id present in the table matches exactly one row. -/
theorem countP_id_eq_one (db : List News) (news_id : Int)
    (huniq : (db.map (fun n => n.id)).Nodup)
    (hmem : ∃ n ∈ db, n.id = news_id) :
    db.countP (fun n => n.id == news_id) = 1 := by
  obtain ⟨n, hn, hid⟩ := hmem
  have h1 : List.count news_id (db.map (fun n => n.id)) = 1 :=
    List.count_eq_one_of_mem huniq (List.mem_map.mpr ⟨n, hn, hid⟩)
  rw [List.count, List.countP_map] at h1
  simpa [Function.comp] using h1

/-- A matched id stays present and ids stay unique after an update. -/
theorem increase_news_views_preserves (db : List News) (news_id : Int) :
    ((∃ n ∈ db, n.id = news_id) →
      ∃ n ∈ (increase_news_views db news_id).1, n.id = news_id)
    ∧ ((db.map (fun n => n.id)).Nodup →
      ((increase_news_views db news_id).1.map (fun n => n.id)).Nodup) := by
  constructor
  · rintro ⟨n, hn, hid⟩
    subst hid
    refine ⟨{ n with views := n.views + 1 }, List.mem_map.mpr ⟨n, hn, ?_⟩, rfl⟩
    simp
  · intro h
    rw [increase_news_views_map_id]
    exact h

/-- C1: for every table with unique news ids and every id present in it, each
call to `increase_news_views` increments that article's total views by
exactly one and returns `true`; rows with a different id are untouched; and
calling it N times increments the views by exactly N, every call of the
sequence returning `true`. -/
theorem increase_news_views_spec (db : List News) (news_id : Int) (N : Nat)
    (huniq : (db.map (fun n => n.id)).Nodup)
    (hmem : ∃ n ∈ db, n.id = news_id) :
    (increase_news_views db news_id).2 = true
    ∧ sum_views (increase_news_views db news_id).1 news_id
        = sum_views db news_id + 1
    ∧ (∀ n ∈ db, n.id ≠ news_id → n ∈ (increase_news_views db news_id).1)
    ∧ sum_views (increase_news_views_iter db news_id N) news_id
        = sum_views db news_id + N
    ∧ (∀ k : Nat,
        (increase_news_views (increase_news_views_iter db news_id k) news_id).2
          = true) := by
  have hstep : ∀ d : List News, (d.map (fun n => n.id)).Nodup →
      (∃ n ∈ d, n.id = news_id) →
      ((increase_news_views d news_id).2 = true
        ∧ sum_views (increase_news_views d news_id).1 news_id
            = sum_views d news_id + 1) := by
    intro d hu hm
    obtain ⟨n, hn, hid⟩ := hm
    constructor
    · simp only [increase_news_views, gt_iff_lt, decide_eq_true_eq]
      have : 0 < d.countP (fun n => n.id == news_id) := by
        rw [countP_id_eq_one d news_id hu ⟨n, hn, hid⟩]; omega
      exact this
    · rw [increase_news_views_sum, countP_id_eq_one d news_id hu ⟨n, hn, hid⟩]
  have hinv : ∀ k : Nat,
      ((increase_news_views_iter db news_id k).map (fun n => n.id)).Nodup
      ∧ (∃ n ∈ increase_news_views_iter db news_id k, n.id = news_id)
      ∧ sum_views (increase_news_views_iter db news_id k) news_id
          = sum_views db news_id + k := by
    intro k
    induction k with
    | zero => exact ⟨huniq, hmem, rfl⟩
    | succ k ih =>
      obtain ⟨hu, hm, hs⟩ := ih
      refine ⟨(increase_news_views_preserves _ news_id).2 hu,
        (increase_news_views_preserves _ news_id).1 hm, ?_⟩
      have := (hstep _ hu hm).2
      simp only [increase_news_views_iter]
      omega
  refine ⟨(hstep db huniq hmem).1, (hstep db huniq hmem).2, ?_, (hinv N).2.2, ?_⟩
  · intro n hn hne
    refine List.mem_map.mpr ⟨n, hn, ?_⟩
    have : (n.id == news_id) = false := by simpa using hne
    simp [this]
  · intro k
    exact (hstep _ (hinv k).1 (hinv k).2.1).1

/-- Concrete news row builder used by witnesses. -/
def newsRow (i cid : Int) (v : Nat) (pt : Int) : News :=
  { id := i, category_id := cid, title := "t", content := "c", image := "im",
    author := "a", publish_time := pt, views := v, created_at := 0,
    updated_at := 0 }

/-- Small concrete news table used by witnesses. -/
def dbW : List News :=
  [newsRow 1 1 0 0, newsRow 2 1 3 5, newsRow 3 2 7 1]

/-- News table with 25 rows in category 1, matching the worked example of the
spec (total 25, page size 10). -/
def db25 : List News :=
  (List.range 25).map (fun i => newsRow (i : Int) 1 0 0)

/-- C1 witness: on a concrete three-row table with unique ids, incrementing
article 2 once adds exactly one view and returns `true`, and incrementing it
four times adds exactly four. -/
theorem increase_news_views_spec_witness :
    (dbW.map (fun n => n.id)).Nodup
    ∧ (increase_news_views dbW 2).2 = true
    ∧ sum_views (increase_news_views dbW 2).1 2 = sum_views dbW 2 + 1
    ∧ sum_views (increase_news_views_iter dbW 2 4) 2 = sum_views dbW 2 + 4 :=
  ⟨by decide,
   (increase_news_views_spec dbW 2 4 (by decide) (by decide)).1,
   (increase_news_views_spec dbW 2 4 (by decide) (by decide)).2.1,
   (increase_news_views_spec dbW 2 4 (by decide) (by decide)).2.2.2.1⟩

/-- C2: for every table and every `page ≥ 1`, `pageSize ∈ [1,100]`, the
news-list route fetches the window starting at offset `(page-1)*pageSize`,
returns at most `pageSize` rows, reports as `total` the number of rows of
the category independent of the window, and reports
`hasMore = (offset + returnedCount) < total`. -/
theorem get_news_list_route_spec (db : List News) (cid page page_size : Int)
    (hp : 1 ≤ page) (h1 : 1 ≤ page_size) (h2 : page_size ≤ 100) :
    (get_news_list_route db cid page page_size).data.list
        = get_news_list db cid (route_offset page page_size) page_size
    ∧ (get_news_list_route db cid page page_size).data.list.length
        ≤ page_size.toNat
    ∧ (get_news_list_route db cid page page_size).data.total
        = get_news_count db cid
    ∧ (get_news_list_route db cid page page_size).data.hasMore
        = decide ((route_offset page page_size).toNat
            + (get_news_list_route db cid page page_size).data.list.length
            < get_news_count db cid) := by
  have hoff : 0 ≤ route_offset page page_size :=
    mul_nonneg (by omega) (by omega)
  refine ⟨rfl, ?_, rfl, ?_⟩
  · simp only [get_news_list_route, get_news_list, List.length_take]
    exact min_le_left _ _
  · simp only [get_news_list_route]
    rw [decide_eq_decide]
    omega

/-- C2 witness: with 25 articles in the category and page size 10, page 3
starts at offset 20, returns 5 rows, and reports no further pages, while
page 1 reports `hasMore = true` — matching the spec's worked example. -/
theorem get_news_list_route_spec_witness :
    (1 : Int) ≤ 3
    ∧ (get_news_list_route db25 1 3 10).data.list.length ≤ (10 : Int).toNat
    ∧ (get_news_list_route db25 1 3 10).data.hasMore
        = decide ((route_offset 3 10).toNat
            + (get_news_list_route db25 1 3 10).data.list.length
            < get_news_count db25 1)
    ∧ (get_news_list_route db25 1 3 10).data.list.length = 5
    ∧ (get_news_list_route db25 1 3 10).data.total = 25
    ∧ (get_news_list_route db25 1 3 10).data.hasMore = false
    ∧ (get_news_list_route db25 1 1 10).data.hasMore = true
    ∧ route_offset 3 10 = 20 :=
  ⟨by decide,
   (get_news_list_route_spec db25 1 3 10 (by decide) (by decide) (by decide)).2.1,
   (get_news_list_route_spec db25 1 3 10 (by decide) (by decide) (by decide)).2.2.2,
   by decide, by decide, by decide, by decide, by decide⟩

/-- Embedding of the ORDER BY clause of `crud/news.py::get_related_news`:
`News.views.desc(), News.publish_time.desc()` — row `a` sorts no later than
row `b` when `a` has strictly more views, or equal views and a publish time
no earlier than `b`. -/
def news_order (a b : News) : Bool :=
  decide (b.views < a.views ∨ (a.views = b.views ∧ b.publish_time ≤ a.publish_time))

/-- Projection built by the list comprehension at the end of
`crud/news.py::get_related_news`: exactly the keys
`id, title, content, image, author, publishTime, categoryId, views`
and nothing else (in particular neither timestamps nor any other column of
the full row). -/
structure NewsSummary where
  id : Int
  title : String
  content : String
  image : String
  author : String
  publishTime : Int
  categoryId : Int
  views : Nat
deriving DecidableEq, Repr

/-- The dictionary built for one row by `get_related_news`. -/
def news_to_summary (n : News) : NewsSummary :=
  { id := n.id, title := n.title, content := n.content, image := n.image,
    author := n.author, publishTime := n.publish_time,
    categoryId := n.category_id, views := n.views }

/-- Embedding of `crud/news.py::get_related_news`: WHERE
`News.id != news_id, News.category_id == category_id`, ORDER BY views
descending then publish time descending, LIMIT `limit` (default 5), then the
projection to summaries. -/
def get_related_news (db : List News) (news_id category_id : Int)
    (limit : Nat := 5) : List NewsSummary :=
  let related_news :=
    ((db.filter (fun n => n.id != news_id && n.category_id == category_id)).mergeSort
        news_order).take limit
  related_news.map news_to_summary

/-- Ordering of summaries corresponding to `news_order`. -/
def summary_order (a b : NewsSummary) : Prop :=
  b.views < a.views ∨ (a.views = b.views ∧ b.publishTime ≤ a.publishTime)

/-- The related-news comparator is transitive. -/
theorem news_order_trans (a b c : News) :
    news_order a b = true → news_order b c = true → news_order a c = true := by
  simp only [news_order, decide_eq_true_eq]
  intro h1 h2
  rcases h1 with h1 | ⟨h1, h1'⟩ <;> rcases h2 with h2 | ⟨h2, h2'⟩
  · exact Or.inl (lt_trans h2 h1)
  · exact Or.inl (by omega)
  · exact Or.inl (by omega)
  · exact Or.inr ⟨by omega, le_trans h2' h1'⟩

/-- The related-news comparator is total. -/
theorem news_order_total (a b : News) :
    (news_order a b || news_order b a) = true := by
  simp only [news_order, Bool.or_eq_true, decide_eq_true_eq]
  omega

/-- C5: for every table, excluded id, category and limit, `get_related_news`
returns at most `limit` summaries; every returned summary has the requested
category, an id different from the excluded one, and is the fixed projection
(`id, title, content, image, author, publishTime, categoryId, views` — the
`NewsSummary` type carries no other field) of some stored row; and the
sequence is sorted by views descending, then publish time descending.  The
function is total, so fewer than `limit` results (including none) is a valid
successful outcome. -/
theorem get_related_news_spec (db : List News) (news_id category_id : Int)
    (limit : Nat) :
    (get_related_news db news_id category_id limit).length ≤ limit
    ∧ (∀ s ∈ get_related_news db news_id category_id limit,
        s.categoryId = category_id ∧ s.id ≠ news_id
        ∧ ∃ n ∈ db, s = news_to_summary n)
    ∧ (get_related_news db news_id category_id limit).Pairwise summary_order := by
  refine ⟨?_, ?_, ?_⟩
  · simp only [get_related_news, List.length_map, List.length_take]
    exact min_le_left _ _
  · intro s hs
    simp only [get_related_news, List.mem_map] at hs
    obtain ⟨n, hn, hns⟩ := hs
    have hn' : n ∈ (db.filter
        (fun n => n.id != news_id && n.category_id == category_id)).mergeSort news_order :=
      (List.take_sublist _ _).mem hn
    rw [List.mem_mergeSort] at hn'
    rw [List.mem_filter] at hn'
    obtain ⟨hmem, hcond⟩ := hn'
    simp only [Bool.and_eq_true, bne_iff_ne, beq_iff_eq] at hcond
    subst hns
    exact ⟨hcond.2, hcond.1, n, hmem, rfl⟩
  · have hsorted : ((db.filter
        (fun n => n.id != news_id && n.category_id == category_id)).mergeSort
          news_order).Pairwise (fun a b => news_order a b = true) :=
      List.sorted_mergeSort news_order_trans news_order_total _
    have htake := hsorted.sublist (List.take_sublist limit _)
    simp only [get_related_news, List.pairwise_map]
    refine htake.imp ?_
    intro a b h
    simp only [news_order, decide_eq_true_eq] at h
    exact h

/-- Concrete table for the related-news witness, matching the spec's worked
example: category 1 holds A(id 1, views 10, published 1),
B(id 2, views 10, published 2), D(id 3, views 5, published 3); category 2
holds one unrelated row. -/
def dbRel : List News :=
  [newsRow 1 1 10 1, newsRow 2 1 10 2, newsRow 3 1 5 3, newsRow 4 2 99 9]

/-- C5 witness: excluding article 1 in category 1 returns `[B, D]` — B first
because on equal views the later publish time wins — with at most 5 items,
each a projection of a stored row with the right category and id. -/
theorem get_related_news_spec_witness :
    (get_related_news dbRel 1 1 5).length ≤ 5
    ∧ ((news_to_summary (newsRow 2 1 10 2)) ∈ get_related_news dbRel 1 1 5 →
        (news_to_summary (newsRow 2 1 10 2)).categoryId = 1
        ∧ (news_to_summary (newsRow 2 1 10 2)).id ≠ 1
        ∧ ∃ n ∈ dbRel, news_to_summary (newsRow 2 1 10 2) = news_to_summary n)
    ∧ (get_related_news dbRel 1 1 5).Pairwise summary_order
    ∧ get_related_news dbRel 1 1 5
        = [news_to_summary (newsRow 2 1 10 2), news_to_summary (newsRow 3 1 5 3)] :=
  ⟨(get_related_news_spec dbRel 1 1 5).1,
   fun h => (get_related_news_spec dbRel 1 1 5).2.1 _ h,
   (get_related_news_spec dbRel 1 1 5).2.2,
   by simp [get_related_news, dbRel, newsRow, List.mergeSort, List.merge,
        news_order, news_to_summary]⟩

/-- Embedding of FastAPI's `HTTPException(status_code=…, detail=…)`. -/
structure HTTPException where
  status_code : Int
  detail : String
deriving DecidableEq, Repr

/-- State of the user-related tables (`User` and `UserToken`), together with
the auto-increment counters the database keeps for the two primary keys. -/
structure UsersDB where
  users : List User
  tokens : List UserToken
  next_user_id : Nat
  next_token_id : Nat
deriving DecidableEq, Repr

/-- Embedding of `crud/users.py::get_user_by_username`: the statement
`select(User).where(User.username == username)` read with
`scalar_one_or_none()` (usernames are unique). -/
def get_user_by_username (db : UsersDB) (username : String) : Option User :=
  db.users.find? (fun u => u.username == username)

/-- Embedding of `crud/users.py::create_user`: hash the password, build a
`User(username=…, password=…)`, add, commit, refresh (the refresh reads the
row back with its auto-assigned id).  The `bio` and `avatar` columns are not
set by the constructor; their column defaults are modelled from the spec as
empty strings. -/
def create_user (hash : String → String) (db : UsersDB)
    (user_data : UserRequest) : UsersDB × User :=
  let hashed_password := get_password_hash hash user_data.password
  let user : User :=
    { id := db.next_user_id, username := user_data.username,
      password := hashed_password, bio := "", avatar := "" }
  ({ db with users := db.users ++ [user],
             next_user_id := db.next_user_id + 1 }, user)

/-- Expiry horizon `timedelta(days=7)` of `crud/users.py::create_token`,
with time modelled in seconds. -/
def seven_days : Int := 7 * 24 * 60 * 60

/-- Embedding of `crud/users.py::create_token`.  The generated uuid token
string and the current time are passed in as parameters.  The lookup is the
statement `select(UserToken).where(UserToken.id == user_id)` — note that the
source compares the token row's own primary key `id` against the given user
id, not the `user_id` column.  If a row is found, its `token` and
`expires_at` attributes are overwritten on the session object; otherwise a
new `UserToken(user_id=…, token=…, expires_at=…)` row is added.  Either way
the resulting `user_token` object is returned (the surrounding
`get_db` dependency commits the session on success). -/
def create_token (db : UsersDB) (token : String) (now : Int)
    (user_id : Nat) : UsersDB × UserToken :=
  let expires_at := now + seven_days
  match db.tokens.find? (fun t => t.id == user_id) with
  | some found =>
    let user_token := { found with token := token, expires_at := expires_at }
    ({ db with tokens :=
        db.tokens.map (fun t => if t.id == user_id then user_token else t) },
     user_token)
  | none =>
    let user_token : UserToken :=
      { id := db.next_token_id, user_id := user_id, token := token,
        expires_at := expires_at }
    ({ db with tokens := db.tokens ++ [user_token],
               next_token_id := db.next_token_id + 1 }, user_token)

/-- Response payload of the register route in `routers/user.py`: the value
returned by `create_token` under the key `token`, and `userInfo` holding
exactly the public fields `id, username, bio, avatar`. -/
structure UserInfo where
  id : Nat
  username : String
  bio : String
  avatar : String
deriving DecidableEq, Repr

/-- Data field of the register route's envelope. -/
structure RegisterData where
  token : UserToken
  userInfo : UserInfo
deriving DecidableEq, Repr

/-- Embedding of the `routers/user.py::register` handler: check for an
existing user by username (raise 400 "User already exists" if present),
create the user, issue the token, and assemble the envelope. -/
def register (hash : String → String) (token : String) (now : Int)
    (db : UsersDB) (user_data : UserRequest) :
    Except HTTPException (Envelope RegisterData) × UsersDB :=
  match get_user_by_username db user_data.username with
  | some _ =>
    (Except.error { status_code := 400, detail := "User already exists" }, db)
  | none =>
    let res := create_user hash db user_data
    let user := res.2
    let res2 := create_token res.1 token now user.id
    (Except.ok
      { code := 200, message := "User created successfully",
        data := { token := res2.2,
                  userInfo := { id := user.id, username := user.username,
                                bio := user.bio, avatar := user.avatar } } },
     res2.1)

/-- Concrete user-table state with one user (id 5) who already holds a token
row (row id 1, user_id 5). -/
def dbTok : UsersDB :=
  { users := [{ id := 5, username := "alice", password := "ph",
                bio := "", avatar := "" }],
    tokens := [{ id := 1, user_id := 5, token := "old", expires_at := 100 }],
    next_user_id := 6, next_token_id := 2 }

/-- C3: token issuance is not an upsert keyed by the user's id.  The lookup
compares the token row's primary key `id` (auto-assigned, here 1) with the
user id (5), finds nothing, and inserts a second row for the same user:
after one reissue user 5 owns two token rows, and the old token value is
still stored, contradicting "at most one token row per user, only the latest
token value stored". -/
theorem create_token_duplicates_rows_for_user :
    (create_token dbTok "new" 0 5).1.tokens.countP (fun t => t.user_id == 5) = 2
    ∧ (create_token dbTok "new" 0 5).1.tokens.countP
        (fun t => t.token == "old") = 1
    ∧ dbTok.tokens.countP (fun t => t.user_id == 5) = 1 := by
  refine ⟨by decide, by decide, by decide⟩

/-- C6: registering a username that already exists fails with status 400
("User already exists") and leaves the stored state completely unchanged —
no User row, no UserToken row, no token issued. -/
theorem register_duplicate_username (hash : String → String) (token : String)
    (now : Int) (db : UsersDB) (user_data : UserRequest)
    (h : ∃ u ∈ db.users, u.username = user_data.username) :
    register hash token now db user_data
      = (Except.error { status_code := 400, detail := "User already exists" },
         db) := by
  obtain ⟨u, hu, hname⟩ := h
  have hs : (get_user_by_username db user_data.username).isSome = true :=
    List.find?_isSome.mpr ⟨u, hu, by simp [hname]⟩
  cases hfind : get_user_by_username db user_data.username with
  | none => rw [hfind] at hs; simp at hs
  | some u' => unfold register; rw [hfind]

/-- Concrete user-table state with one registered user "alice". -/
def dbAlice : UsersDB :=
  { users := [{ id := 1, username := "alice", password := "ph",
                bio := "", avatar := "" }],
    tokens := [], next_user_id := 2, next_token_id := 1 }

/-- C6 witness: registering "alice" a second time on a concrete state fails
with 400 and returns the state unchanged. -/
theorem register_duplicate_username_witness :
    register (fun s => s) "tok" 0 dbAlice { username := "alice", password := "pw" }
      = (Except.error { status_code := 400, detail := "User already exists" },
         dbAlice) :=
  register_duplicate_username (fun s => s) "tok" 0 dbAlice
    { username := "alice", password := "pw" }
    ⟨{ id := 1, username := "alice", password := "ph", bio := "", avatar := "" },
     by decide, rfl⟩

/-- C9: on successful registration the envelope's data holds the issued
token (the row returned by `create_token`, whose `token` field is the issued
value) and `userInfo` consisting exactly of the public fields
`id, username, bio, avatar` (the `UserInfo` type has no other field); and
the password hash never appears anywhere in the response: the response is
identical for every choice of the hashing primitive, so no part of it
depends on the stored hash. -/
theorem register_success_response (h1 h2 : String → String) (token : String)
    (now : Int) (db : UsersDB) (user_data : UserRequest)
    (habs : get_user_by_username db user_data.username = none) :
    (∃ ut : UserToken,
      (register h1 token now db user_data).1
        = Except.ok
            { code := 200, message := "User created successfully",
              data := { token := ut,
                        userInfo := { id := db.next_user_id,
                                      username := user_data.username,
                                      bio := "", avatar := "" } } }
      ∧ ut.token = token)
    ∧ (register h1 token now db user_data).1
        = (register h2 token now db user_data).1 := by
  unfold register
  rw [habs]
  simp only [create_user, create_token]
  cases hfind : db.tokens.find? (fun t => t.id == db.next_user_id) with
  | none => exact ⟨⟨_, rfl, rfl⟩, rfl⟩
  | some found => exact ⟨⟨_, rfl, rfl⟩, rfl⟩

/-- Empty user-table state. -/
def dbEmpty : UsersDB :=
  { users := [], tokens := [], next_user_id := 1, next_token_id := 1 }

/-- C9 witness: registering "bob" on the empty state succeeds, and the
response is the same under two different hashing primitives. -/
theorem register_success_response_witness :
    get_user_by_username dbEmpty "bob" = none
    ∧ (register (fun s => String.append "h1" s) "tok" 0 dbEmpty
        { username := "bob", password := "pw" }).1
      = (register (fun s => String.append "h2" s) "tok" 0 dbEmpty
          { username := "bob", password := "pw" }).1 :=
  ⟨rfl,
   (register_success_response (fun s => String.append "h1" s)
     (fun s => String.append "h2" s) "tok" 0 dbEmpty
     { username := "bob", password := "pw" } rfl).2⟩

/-- Data field of the news-detail route's envelope: the full display fields
of the article plus `relatedNews`. -/
structure NewsDetailData where
  id : Int
  title : String
  content : String
  image : String
  author : String
  publishTime : Int
  categoryId : Int
  views : Nat
  relatedNews : List NewsSummary
deriving DecidableEq, Repr

/-- Embedding of the `routers/news.py::get_news_detail` handler: fetch the
article (404 "新闻不存在" if absent), increment its views (404 again if the
update matched no row), fetch related news from the updated table, and
assemble the envelope (the `views` field reports the value read before the
increment, as the fetched object is not refreshed). -/
def get_news_detail_route (db : List News) (news_id : Int) :
    Except HTTPException (Envelope NewsDetailData) × List News :=
  match get_news_detail db news_id with
  | none => (Except.error { status_code := 404, detail := "新闻不存在" }, db)
  | some news_detail =>
    let res := increase_news_views db news_detail.id
    if res.2 then
      let related_news :=
        get_related_news res.1 news_detail.id news_detail.category_id 5
      (Except.ok
        { code := 200, message := "success",
          data := { id := news_detail.id, title := news_detail.title,
                    content := news_detail.content,
                    image := news_detail.image, author := news_detail.author,
                    publishTime := news_detail.publish_time,
                    categoryId := news_detail.category_id,
                    views := news_detail.views,
                    relatedNews := related_news } }, res.1)
    else (Except.error { status_code := 404, detail := "新闻不存在" }, res.1)

/-- C4: on a table with unique ids, the detail route fails with 404 exactly
when the article is missing — if no stored row has the requested id the
fetch fails and the route returns the 404 error; if some row has it, the
subsequent increment necessarily matches a row and the route returns the
success envelope (code 200). -/
theorem get_news_detail_route_spec (db : List News) (news_id : Int)
    (_huniq : (db.map (fun n => n.id)).Nodup) :
    ((∀ n ∈ db, n.id ≠ news_id) →
      (get_news_detail_route db news_id).1
        = Except.error { status_code := 404, detail := "新闻不存在" })
    ∧ ((∃ n ∈ db, n.id = news_id) →
      ∃ env, (get_news_detail_route db news_id).1 = Except.ok env
        ∧ env.code = 200) := by
  constructor
  · intro habs
    have hnone : get_news_detail db news_id = none := by
      rw [get_news_detail, List.find?_eq_none]
      intro n hn
      simpa using habs n hn
    unfold get_news_detail_route
    rw [hnone]
  · rintro ⟨n, hn, hid⟩
    have hsome : (get_news_detail db news_id).isSome = true :=
      List.find?_isSome.mpr ⟨n, hn, by simp [hid]⟩
    cases hfind : get_news_detail db news_id with
    | none => rw [hfind] at hsome; simp at hsome
    | some nd =>
      have hndmem : nd ∈ db := List.mem_of_find?_eq_some hfind
      have hinc : (increase_news_views db nd.id).2 = true := by
        simp only [increase_news_views, gt_iff_lt, decide_eq_true_eq]
        rw [List.countP_pos_iff]
        exact ⟨nd, hndmem, by simp⟩
      unfold get_news_detail_route
      rw [hfind]
      simp only [hinc, if_true]
      exact ⟨_, rfl, rfl⟩

/-- C4 witness: on the concrete three-row table, id 99 is absent and the
route fails with 404, while id 2 is present and the route succeeds with
code 200. -/
theorem get_news_detail_route_spec_witness :
    (dbW.map (fun n => n.id)).Nodup
    ∧ (get_news_detail_route dbW 99).1
        = Except.error { status_code := 404, detail := "新闻不存在" }
    ∧ ∃ env, (get_news_detail_route dbW 2).1 = Except.ok env
        ∧ env.code = 200 :=
  ⟨by decide,
   (get_news_detail_route_spec dbW 99 (by decide)).1 (by decide),
   (get_news_detail_route_spec dbW 2 (by decide)).2
     ⟨newsRow 2 1 3 5, by decide, rfl⟩⟩
